import Mathlib

/-!
Shallow embedding of the NL2SQL agent (jcsn13/sql-adk-agent): the SQL
validator/executor wrapper (`run_bigquery_validation` with its inner
`cleanup_sql`, from sql_agent/sub_agents/bigquery/tools.py), the two-tier
cache (`CacheManager`, sql_agent/cache.py), the model callbacks
(sql_agent/sub_agents/bigquery/callbacks.py) and the parallel model-call
batching (`GeminiModel.call_parallel`,
sql_agent/sub_agents/bigquery/chase_sql/llm_utils.py).

External collaborators (the BigQuery client and the Gemini model) are
passed in as function-valued parameters; Python strings are Lean
`String`s, Python dicts are association lists with last-write-wins
update, and row values are an inductive `Value` type covering the scalar
shapes the code branches on.
-/

namespace SqlAgent

/-! ### Character/string primitives mirroring the Python string operations -/

/-- Lowercase a string character by character (Python `str.lower()` on
ASCII SQL text). -/
def lowerStr (s : String) : String :=
  ⟨s.data.map Char.toLower⟩

/-- Test `listStartsWith pat l` holds when `pat` is an initial segment of `l`. -/
def listStartsWith : List Char → List Char → Bool
  | [], _ => true
  | _ :: _, [] => false
  | p :: ps, c :: cs => p == c && listStartsWith ps cs

/-- Test `containsSub l pat`: does `pat` occur contiguously inside `l`?
(Python's `pat in s` substring test.) -/
def containsSub : List Char → List Char → Bool
  | [], pat => pat.isEmpty
  | c :: t, pat => listStartsWith pat (c :: t) || containsSub t pat

/-- Substring containment on strings, Python `pat in s`. -/
def strContains (s pat : String) : Bool :=
  containsSub s.data pat.data

/-- Fuel-indexed worker for `replaceAll`; the fuel is the length of the
scanned list, so the recursion is structural and kernel-reducible. -/
def replaceAllAux (pat rep : List Char) : Nat → List Char → List Char
  | _, [] => []
  | 0, l => l
  | fuel + 1, c :: t =>
    if pat ≠ [] && listStartsWith pat (c :: t) then
      rep ++ replaceAllAux pat rep fuel (t.drop (pat.length - 1))
    else
      c :: replaceAllAux pat rep fuel t

/-- Replace every (leftmost, non-overlapping) occurrence of `pat` by
`rep`, Python `s.replace(pat, rep)` for a non-empty `pat`. -/
def strReplace (s pat rep : String) : String :=
  ⟨replaceAllAux pat.data rep.data s.data.length s.data⟩

/-- Two-digit zero padding, as produced by `strftime` `%m`/`%d`. -/
def pad2 (n : Nat) : String :=
  if n < 10 then "0" ++ toString n else toString n

/-- Four-digit zero padding, as produced by `strftime` `%Y`. -/
def pad4 (n : Nat) : String :=
  (if n < 10 then "000" else if n < 100 then "00" else if n < 1000 then "0" else "")
    ++ toString n

/-- Python `value.strftime("%Y-%m-%d")` applied to the date part of a value. -/
def formatYMD (y m d : Nat) : String :=
  pad4 y ++ "-" ++ pad2 m ++ "-" ++ pad2 d

/-! ### Row values

A BigQuery row cell as the Python code sees it.  The executor hands back
native Python scalars; the only type test the code performs is
`isinstance(value, datetime.date)`, which is true for `datetime.date`
and `datetime.datetime` (a subclass of `date`) and false for everything
else, including `datetime.time`. -/

inductive Value where
  | vNull : Value
  | vInt : Int → Value
  | vStr : String → Value
  | vBool : Bool → Value
  | vDate : Nat → Nat → Nat → Value
  | vDatetime : Nat → Nat → Nat → Nat → Nat → Nat → Value
  | vTime : Nat → Nat → Nat → Value
  deriving DecidableEq, Repr

/-- Python `isinstance(value, datetime.date)`: dates and datetimes are
`date` instances, times (and all other scalars) are not. -/
def isDateInstance : Value → Bool
  | .vDate _ _ _ => true
  | .vDatetime _ _ _ _ _ _ => true
  | _ => false

/-- Whether the value is a plain string. -/
def isStringValue : Value → Bool
  | .vStr _ => true
  | _ => false

/-- The per-cell transform of `run_bigquery_validation`:
`value if not isinstance(value, datetime.date) else value.strftime("%Y-%m-%d")`. -/
def convertValue : Value → Value
  | .vDate y m d => .vStr (formatYMD y m d)
  | .vDatetime y m d _ _ _ => .vStr (formatYMD y m d)
  | v => v

/-- A result row: ordered field name/value pairs (`row.items()`). -/
abbrev Row := List (String × Value)

/-- The row comprehension body: each cell converted by `convertValue`. -/
def convertRow (r : Row) : Row :=
  r.map fun kv => (kv.1, convertValue kv.2)

/-! ### The SQL validator/executor (`run_bigquery_validation`) -/

/-- Row cap from tools.py. -/
def MAX_NUM_ROWS : Nat := 80

/-- Steps 1-4 of `cleanup_sql`: unescape `\"`, backslash-newline, `\'`
and the two-character escape `\n`. -/
def normalize_escapes (sql_string : String) : String :=
  let s1 := strReplace sql_string "\\\"" "\""
  let s2 := strReplace s1 "\\\n" "\n"
  let s3 := strReplace s2 "\\\x27" "\x27"
  strReplace s3 "\\n" "\n"

/-- The inner `cleanup_sql` of `run_bigquery_validation`: unescape, then
append a `limit` clause when the lowercased text has no `"limit"`
substring. -/
def cleanup_sql (sql_string : String) : String :=
  let s := normalize_escapes sql_string
  if strContains (lowerStr s) "limit" then s
  else s ++ " limit " ++ toString MAX_NUM_ROWS

/-- The deny list of the DML/DDL check, in the order of the regex
alternation. -/
def deniedKeywords : List String :=
  ["update", "delete", "drop", "insert", "create", "alter", "truncate", "merge"]

/-- The regex `(?i)(update|delete|drop|insert|create|alter|truncate|merge)`
applied by `re.search`: a case-insensitive substring test, with no word
boundaries. -/
def containsDenied (sql : String) : Bool :=
  deniedKeywords.any fun kw => strContains (lowerStr sql) kw

/-- Word characters of the regex class `\w`, used only by the spec-side
whole-word reading of the deny list. -/
def isWordChar (c : Char) : Bool :=
  c.isAlphanum || c == '_'

/-- Helper for `containsWholeWord`: scan `l` keeping the character just
before the current position. -/
def wholeWordAux (pat : List Char) : Option Char → List Char → Bool
  | prev, l =>
    ((match prev with
       | none => true
       | some c => !isWordChar c)
      && listStartsWith pat l
      && (match (l.drop pat.length).head? with
          | none => true
          | some c => !isWordChar c))
    ||
    (match l with
     | [] => false
     | c :: t => wholeWordAux pat (some c) t)

/-- Spec-side definition, following the spec's words: the keyword occurs
in the text as a whole word (no word character adjacent on either
side). -/
def containsWholeWord (s pat : String) : Bool :=
  wholeWordAux pat.data none s.data

/-- Spec-side reading of the safety check: some deny-listed keyword
occurs, case-insensitively, as a whole-word match. -/
def containsDeniedWholeWord (sql : String) : Bool :=
  deniedKeywords.any fun kw => containsWholeWord (lowerStr sql) kw

/-- Outcome of one call to the SQL Executor collaborator
(`bq_client.query(...).result()`): either a raised exception with a
message, or a schema (column names) together with the iterated rows. -/
inductive ExecOutcome where
  | exn : String → ExecOutcome
  | ok : List String → List Row → ExecOutcome

/-- The `final_result` dictionary of `run_bigquery_validation`:
`{"query_result": ..., "error_message": ...}`. -/
structure FinalResult where
  query_result : Option (List Row)
  error_message : Option String
  deriving DecidableEq, Repr

/-- The fixed rejection message of the deny-list check. -/
def rejectMsg : String := "Invalid SQL: Contains disallowed DML/DDL operations."

/-- The fixed message of the empty-schema branch. -/
def noResultsMsg : String := "Valid SQL. Query executed successfully (no results)."

/-- Function `run_bigquery_validation` from tools.py, with the BigQuery client
abstracted into `execute : String → ExecOutcome` (the collaborator
receives the cleaned SQL text).  The mirrored steps: cleanup, deny-list
regex test, execution inside `try`, row mapping truncated to
`MAX_NUM_ROWS` when the schema is non-empty, the fixed no-results
message when it is empty, and `"Invalid SQL: " ++ e` for an exception
`e`. -/
def run_bigquery_validation (execute : String → ExecOutcome) (sql_string : String) :
    FinalResult :=
  let sql := cleanup_sql sql_string
  if containsDenied sql then
    { query_result := none, error_message := some rejectMsg }
  else
    match execute sql with
    | .exn e => { query_result := none, error_message := some ("Invalid SQL: " ++ e) }
    | .ok schema rows =>
      if schema.isEmpty then
        { query_result := none, error_message := some noResultsMsg }
      else
        { query_result := some ((rows.map convertRow).take MAX_NUM_ROWS)
          error_message := none }

/-- An executor that always succeeds with one column and no rows; used
to separate the deny-list rejection from executor-dependent outcomes. -/
def okExec : String → ExecOutcome := fun _ => .ok ["a"] []

/-! ### The two-tier cache (sql_agent/cache.py)

Python dictionaries become association lists; `d.get(k)` is `dictGet`,
`d[k] = v` is the last-write-wins `dictSet`. -/

/-- Python `d.get(k)` on an association list. -/
def dictGet {ν : Type} : List (String × ν) → String → Option ν
  | [], _ => none
  | (k', v) :: t, k => if k' = k then some v else dictGet t k

/-- Python `d[k] = v`: overwrite the entry if the key is present, append
otherwise. -/
def dictSet {ν : Type} : List (String × ν) → String → ν → List (String × ν)
  | [], k, v => [(k, v)]
  | (k', v') :: t, k, v =>
    if k' = k then (k, v) :: t else (k', v') :: dictSet t k v

/-- One message: a role plus the texts of its parts.  (`types.Content`;
`parts[i].text` is flattened to the text itself, the only field the
callbacks read.) -/
structure Content where
  role : String
  parts : List String
  deriving DecidableEq, Repr

/-- The dictionary stored in the query tier by `after_model_callback`:
`{"response": llm_response.content, "artifacts": []}`. -/
structure QueryCacheEntry where
  response : Content
  artifacts : List String
  deriving DecidableEq, Repr

/-- Python `CacheManager.__init__`: two empty dictionaries. -/
structure CacheManager where
  query_cache : List (String × QueryCacheEntry)
  question_cache : List (String × String)
  deriving DecidableEq, Repr

/-- The freshly constructed `CacheManager()`. -/
def CacheManager.mkEmpty : CacheManager :=
  { query_cache := [], question_cache := [] }

/-- Method `CacheManager.get_from_query_cache`. -/
def get_from_query_cache (m : CacheManager) (query : String) : Option QueryCacheEntry :=
  dictGet m.query_cache query

/-- Method `CacheManager.set_to_query_cache`. -/
def set_to_query_cache (m : CacheManager) (query : String) (response : QueryCacheEntry) :
    CacheManager :=
  { m with query_cache := dictSet m.query_cache query response }

/-- Method `CacheManager.get_from_question_cache`. -/
def get_from_question_cache (m : CacheManager) (question : String) : Option String :=
  dictGet m.question_cache question

/-- Method `CacheManager.set_to_question_cache`. -/
def set_to_question_cache (m : CacheManager) (question : String) (query : String) :
    CacheManager :=
  { m with question_cache := dictSet m.question_cache question query }

/-! ### The model callbacks (sql_agent/sub_agents/bigquery/callbacks.py) -/

/-- The request object: only `contents` is read by the callback. -/
structure LlmRequest where
  contents : List Content
  deriving DecidableEq, Repr

/-- The response object: only `content` is read by the callbacks. -/
structure LlmResponse where
  content : Option Content
  deriving DecidableEq, Repr

/-- The slice of `CallbackContext` the after-callback reads. -/
structure CallbackContext where
  history : List Content
  deriving DecidableEq, Repr

/-- Python truthiness of an optional string: `None` and `""` are falsy. -/
def pyTruthyStr : Option String → Bool
  | none => false
  | some s => !(s == "")

/-- Callback `before_model_callback`: when the request has contents, take the
text of the first part of the last content as the question, consult the
question tier, and on a truthy hit consult the query tier; a hit in
both returns a response built from the cached parts with role
`"model"`, anything else returns `None`.  (The source indexes
`parts[0]` unconditionally; the `none` fallback on an empty `parts`
list stands in for the `IndexError` path, which no claim exercises.) -/
def before_model_callback (m : CacheManager) (llm_request : LlmRequest) :
    Option LlmResponse :=
  match llm_request.contents.getLast? with
  | none => none
  | some content =>
    match content.parts.head? with
    | none => none
    | some question =>
      let cached_query := get_from_question_cache m question
      if pyTruthyStr cached_query then
        match cached_query with
        | none => none
        | some q =>
          match get_from_query_cache m q with
          | none => none
          | some cached_response =>
            some { content := some { role := "model", parts := cached_response.response.parts } }
      else none

/-- Callback `after_model_callback`: when the response has a content with a
non-empty `parts` list and the context history is non-empty, write the
query tier (`query ↦ {response, artifacts := []}`) and then the
question tier (`question ↦ query`); otherwise leave the cache alone.
The question is the first part of the last history entry (again with a
no-op fallback for the unguarded `parts[0]`). -/
def after_model_callback (callback_context : CallbackContext) (m : CacheManager)
    (llm_response : LlmResponse) : CacheManager :=
  match llm_response.content with
  | none => m
  | some content =>
    match content.parts.head? with
    | none => m
    | some query =>
      match callback_context.history.getLast? with
      | none => m
      | some last =>
        match last.parts.head? with
        | none => m
        | some question =>
          let m1 := set_to_query_cache m query { response := content, artifacts := [] }
          set_to_question_cache m1 question query

/-- Modelled from the spec: the agent wiring that invokes the callbacks
(the ADK agent definitions of this repository are not under src/).  Per
the spec's dispatcher contract, `before_model_callback` is consulted
before the Language Model; a non-`None` return is used as the response
and the model is NOT invoked, a `None` return falls through to the
model.  The boolean records whether the Language Model was invoked. -/
def resolveViaCache (m : CacheManager) (model : LlmRequest → LlmResponse)
    (llm_request : LlmRequest) : LlmResponse × Bool :=
  match before_model_callback m llm_request with
  | some cached => (cached, false)
  | none => (model llm_request, true)

/-- Modelled from the spec: the miss-path round trip of the dispatcher
(root-agent wiring not under src/).  On a miss the Language Model is
called on the question, the framework hands the model response to
`after_model_callback`, and the produced candidate SQL (the first part
of the response) is run through the validator/executor; a deny-list
rejection is a terminal failure of the request (spec: `InvalidSqlError`
is surfaced immediately, not subject to correction). -/
def dispatchOnMiss (execute : String → ExecOutcome) (model : String → LlmResponse)
    (m : CacheManager) (question : String) : CacheManager × FinalResult :=
  let resp := model question
  let ctx : CallbackContext := { history := [{ role := "user", parts := [question] }] }
  let m1 := after_model_callback ctx m resp
  let sql :=
    match resp.content with
    | none => ""
    | some c => c.parts.headD ""
  (m1, run_bigquery_validation execute sql)

/-! ### Parallel model calls (`GeminiModel.call_parallel`, llm_utils.py)

The thread pool is modelled deterministically: every prompt's model
call is a task with an outcome (a completion or a raised exception) and
a duration.  `max_workers` equals the number of prompts, so all tasks
start together and each future completes at its own duration;
`as_completed` therefore yields the futures in ascending duration
order, and raises `TimeoutError` from `__next__` as soon as the next
pending future would complete after the timeout — an exception the
source does not catch, so it escapes `call_parallel` (the
`results[index] = "Timeout"` fix-up after the loop is unreachable: when
no timeout fires every future is already done). -/

/-- Outcome of `self.call(prompt, parser_func)` for one prompt. -/
inductive CallOutcome where
  | ok : String → CallOutcome
  | exn : String → CallOutcome
  deriving DecidableEq, Repr

/-- One submitted prompt: what its model call would do and how long it
runs. -/
structure PromptTask where
  outcome : CallOutcome
  duration : Nat
  deriving DecidableEq, Repr

/-- The thread `worker`: returns the completion, or catches any
exception and returns the `f"Error: {str(e)}"` sentinel — it never
raises. -/
def worker (t : PromptTask) : String :=
  match t.outcome with
  | .ok s => s
  | .exn e => "Error: " ++ e

/-- Insert an indexed future into a list kept sorted by completion
time. -/
def insertByDuration (x : Nat × PromptTask) :
    List (Nat × PromptTask) → List (Nat × PromptTask)
  | [] => [x]
  | y :: t =>
    if x.2.duration ≤ y.2.duration then x :: y :: t else y :: insertByDuration x t

/-- Sort the indexed futures by completion time: the order in which
`as_completed` yields them. -/
def sortByDuration : List (Nat × PromptTask) → List (Nat × PromptTask)
  | [] => []
  | x :: t => insertByDuration x (sortByDuration t)

/-- Loop `for future in as_completed(future_to_index, timeout=timeout)`: futures arrive in completion order; a future completing within
the timeout stores `future.result()` (the worker's return value) into
its slot; once the next completion lies beyond the timeout, `__next__`
raises `concurrent.futures.TimeoutError`, which nothing catches. -/
def asCompletedLoop (timeout : Nat) :
    List (Nat × PromptTask) → List (Option String) → Except String (List (Option String))
  | [], results => .ok results
  | (i, t) :: rest, results =>
    if t.duration ≤ timeout then
      asCompletedLoop timeout rest (results.set i (some (worker t)))
    else
      .error "concurrent.futures.TimeoutError"

/-- Method `GeminiModel.call_parallel`: `results = [None] * len(prompts)`,
one worker per prompt, the `as_completed` harvest loop, and the
post-loop timeout fix-up (a no-op here, since reaching it means every
future completed in time). -/
def call_parallel (tasks : List PromptTask) (timeout : Nat) :
    Except String (List (Option String)) :=
  let futures := sortByDuration tasks.enum
  asCompletedLoop timeout futures (List.replicate tasks.length none)

/-! ### Cache operation sequences (frame reasoning for the cache) -/

/-- One mutating cache operation. -/
inductive CacheOp where
  | setQuestion : String → String → CacheOp
  | setQuery : String → QueryCacheEntry → CacheOp
  deriving DecidableEq

/-- Apply one operation to a cache. -/
def applyCacheOp (m : CacheManager) : CacheOp → CacheManager
  | .setQuestion k v => set_to_question_cache m k v
  | .setQuery k v => set_to_query_cache m k v

/-- Run a sequence of operations from the freshly constructed cache. -/
def applyCacheOps (ops : List CacheOp) : CacheManager :=
  ops.foldl applyCacheOp CacheManager.mkEmpty

/-- An executor answering with an empty schema (a statement that
returns no result set). -/
def emptySchemaExec : String → ExecOutcome := fun _ => .ok [] []

/-- An executor answering 200 identical one-column rows. -/
def exec200 : String → ExecOutcome :=
  fun _ => .ok ["a"] (List.replicate 200 [("a", Value.vInt 1)])

/-- An executor answering a single row holding one date value. -/
def dateExec : String → ExecOutcome :=
  fun _ => .ok ["d"] [[("d", Value.vDate 2024 3 5)]]

/-- A model that always answers with the SQL text `DROP TABLE t`. -/
def dropModel : String → LlmResponse :=
  fun _ => { content := some { role := "model", parts := ["DROP TABLE t"] } }

/-! ### Helper lemmas -/

/-- Updating one key of a Python dict leaves lookups of other keys
unchanged. -/
theorem dictGet_dictSet_ne {ν : Type} (d : List (String × ν)) (k' k : String) (v : ν)
    (h : k' ≠ k) : dictGet (dictSet d k' v) k = dictGet d k := by
  induction d with
  | nil => simp [dictGet, dictSet, h]
  | cons hd tl ih =>
    obtain ⟨kh, vh⟩ := hd
    by_cases hk : kh = k'
    · subst hk
      simp [dictGet, dictSet, h]
    · simp only [dictSet, if_neg hk]
      by_cases hk2 : kh = k
      · simp [dictGet, hk2]
      · simp [dictGet, hk2, ih]

/-- Converted cells are never native date objects. -/
theorem isDateInstance_convertValue (v : Value) : isDateInstance (convertValue v) = false := by
  cases v <;> rfl

/-- Question-tier lookups stay `none` under operation sequences that
never set the key. -/
theorem applyOps_question_none (ops : List CacheOp) (m : CacheManager) (k : String)
    (hops : ∀ v, CacheOp.setQuestion k v ∉ ops)
    (hm : dictGet m.question_cache k = none) :
    dictGet (ops.foldl applyCacheOp m).question_cache k = none := by
  induction ops generalizing m with
  | nil => simpa using hm
  | cons op rest ih =>
    simp only [List.foldl_cons]
    refine ih (applyCacheOp m op) (fun v hv => hops v (List.mem_cons_of_mem _ hv)) ?_
    cases op with
    | setQuestion k' v =>
      have hne : k' ≠ k := by
        intro hkk
        subst hkk
        exact hops v (List.mem_cons_self _ _)
      simpa [applyCacheOp, set_to_question_cache] using
        (dictGet_dictSet_ne m.question_cache k' k v hne).trans hm
    | setQuery k' e =>
      simpa [applyCacheOp, set_to_query_cache] using hm

/-- Query-tier lookups stay `none` under operation sequences that never
set the key. -/
theorem applyOps_query_none (ops : List CacheOp) (m : CacheManager) (k : String)
    (hops : ∀ e, CacheOp.setQuery k e ∉ ops)
    (hm : dictGet m.query_cache k = none) :
    dictGet (ops.foldl applyCacheOp m).query_cache k = none := by
  induction ops generalizing m with
  | nil => simpa using hm
  | cons op rest ih =>
    simp only [List.foldl_cons]
    refine ih (applyCacheOp m op) (fun e he => hops e (List.mem_cons_of_mem _ he)) ?_
    cases op with
    | setQuestion k' v =>
      simpa [applyCacheOp, set_to_question_cache] using hm
    | setQuery k' e =>
      have hne : k' ≠ k := by
        intro hkk
        subst hkk
        exact hops e (List.mem_cons_self _ _)
      simpa [applyCacheOp, set_to_query_cache] using
        (dictGet_dictSet_ne m.query_cache k' k e hne).trans hm

/-! ### Claim C6 -/

/-- C6: for every execution outcome, `run_bigquery_validation` never
returns both a non-null `query_result` and a non-null `error_message`:
the two fields are mutually exclusive. -/
theorem query_result_error_mutually_exclusive
    (execute : String → ExecOutcome) (sql : String) :
    (run_bigquery_validation execute sql).query_result = none ∨
      (run_bigquery_validation execute sql).error_message = none := by
  unfold run_bigquery_validation
  by_cases h : containsDenied (cleanup_sql sql)
  · simp [h]
  · simp only [h, if_false, Bool.false_eq_true]
    cases hx : execute (cleanup_sql sql) with
    | exn e => simp
    | ok schema rows =>
      by_cases hs : schema.isEmpty
      · simp [hs]
      · simp [hs]

/-! ### Claim C7 -/

/-- C7: whenever `run_bigquery_validation` returns a row payload, its
length is at most `MAX_NUM_ROWS` (80), regardless of how many rows the
executor yields. -/
theorem query_result_length_le_max
    (execute : String → ExecOutcome) (sql : String) (r : List Row)
    (h : (run_bigquery_validation execute sql).query_result = some r) :
    r.length ≤ MAX_NUM_ROWS := by
  unfold run_bigquery_validation at h
  by_cases hd : containsDenied (cleanup_sql sql)
  · simp [hd] at h
  · simp only [hd, if_false, Bool.false_eq_true] at h
    cases hx : execute (cleanup_sql sql) with
    | exn e => simp [hx] at h
    | ok schema rows =>
      rw [hx] at h
      by_cases hs : schema.isEmpty
      · simp [hs] at h
      · simp only [hs, if_false, Bool.false_eq_true, Option.some.injEq] at h
        subst h
        exact List.length_take_le MAX_NUM_ROWS (rows.map convertRow)

/-- Witness for C7: an executor seeded with 200 rows yields exactly the
first 80 back. -/
theorem query_result_length_le_max_witness :
    (List.replicate 80 ([("a", Value.vInt 1)] : Row)).length ≤ MAX_NUM_ROWS :=
  query_result_length_le_max exec200 "select 1"
    (List.replicate 80 ([("a", Value.vInt 1)] : Row)) (by rfl)

/-! ### Claim C4 -/

/-- C4 (code bug evaluation): a worker exception is contained to its
own slot of a full-length result list (second conjunct, the spec's
5-prompt scenario), but a single slow call makes `as_completed` raise
`TimeoutError`, which escapes `call_parallel` instead of marking that
slot with the `"Timeout"` sentinel (first conjunct): the caller gets a
raised exception, not a full-length list. -/
theorem call_parallel_timeout_escapes :
    call_parallel [⟨.ok "a", 1⟩, ⟨.ok "b", 100⟩] 60 =
        .error "concurrent.futures.TimeoutError" ∧
      call_parallel
          [⟨.ok "r1", 3⟩, ⟨.ok "r2", 1⟩, ⟨.exn "boom", 2⟩, ⟨.ok "r4", 5⟩, ⟨.ok "r5", 4⟩]
          60 =
        .ok [some "r1", some "r2", some "Error: boom", some "r4", some "r5"] := by
  exact ⟨rfl, rfl⟩

/-! ### Claim C1 -/

/-- C1 (counterexample): the deny-list check is not a whole-word match.
The query `select created_at from t limit 5` contains no deny-listed
keyword as a whole word, yet validation rejects it with the fixed
message (the regex finds `create` inside `created_at`), against an
executor that would have succeeded. -/
theorem deny_list_not_whole_word :
    run_bigquery_validation okExec "select created_at from t limit 5" =
        { query_result := none, error_message := some rejectMsg } ∧
      containsDeniedWholeWord (cleanup_sql "select created_at from t limit 5") = false :=
  ⟨rfl, by decide⟩

/-- C1 (amended): validation rejects a query — meaning every executor
yields the same fixed `InvalidSqlError` result, so the executor is
never consulted — exactly when the cleaned text contains a deny-listed
keyword case-insensitively as a substring (not as a whole word). -/
theorem rejects_iff_denied_substring (sql : String) :
    containsDenied (cleanup_sql sql) = true ↔
      ∀ execute : String → ExecOutcome,
        run_bigquery_validation execute sql =
          { query_result := none, error_message := some rejectMsg } := by
  constructor
  · intro h execute
    unfold run_bigquery_validation
    simp [h]
  · intro h
    by_contra hc
    have hfalse : containsDenied (cleanup_sql sql) = false := by
      simpa using hc
    have h2 := h okExec
    unfold run_bigquery_validation at h2
    simp [hfalse, okExec] at h2

/-! ### Claim C5 -/

/-- C5 (counterexample): on a successful execution returning an empty
result set (empty schema), the fixed "executed, no rows" message is
delivered through the `error_message` field with a `none` payload —
the same shape as a failure result, not a non-error status. -/
theorem empty_schema_success_is_error_shaped :
    run_bigquery_validation emptySchemaExec "select 1" =
        { query_result := none, error_message := some noResultsMsg } ∧
      (run_bigquery_validation emptySchemaExec "select 1").error_message.isSome = true ∧
      (run_bigquery_validation emptySchemaExec "select 1").query_result = none :=
  ⟨rfl, rfl, rfl⟩

/-- C5 (amended): a successful execution with an empty result set
yields the fixed message `Valid SQL. Query executed successfully (no
results).` in the `error_message` field; that message is distinct from
the deny-list rejection message and from every executor-exception
message (which always carry the `Invalid SQL: ` prefix), so the
outcome is distinguishable from every failure result, though it is not
a non-error status. -/
theorem no_results_status_via_error_message
    (execute : String → ExecOutcome) (sql : String) (rows : List Row)
    (hd : containsDenied (cleanup_sql sql) = false)
    (hx : execute (cleanup_sql sql) = .ok [] rows) :
    run_bigquery_validation execute sql =
        { query_result := none, error_message := some noResultsMsg } ∧
      noResultsMsg ≠ rejectMsg ∧
      ∀ e : String, noResultsMsg ≠ "Invalid SQL: " ++ e := by
  refine ⟨?_, by decide, ?_⟩
  · unfold run_bigquery_validation
    simp [hd, hx]
  · intro e h
    have h1 : noResultsMsg.data.head? = some 'V' := rfl
    have h2 : (("Invalid SQL: " ++ e).data).head? = some 'I' := by
      rw [String.data_append]
      rfl
    rw [h] at h1
    exact absurd (h1.symm.trans h2).symm (by decide)

/-- Witness for the amended C5 at a concrete empty-schema executor. -/
theorem no_results_status_via_error_message_witness :
    run_bigquery_validation emptySchemaExec "select 1" =
      { query_result := none, error_message := some noResultsMsg } :=
  (no_results_status_via_error_message emptySchemaExec "select 1" [] (by decide) rfl).1

/-! ### Claim C8 -/

/-- C8 (counterexample): a SQL string that already contains a `limit`
clause is not always left unchanged by cleanup — the escape
normalization still rewrites it (here the two-character `\n` becomes a
newline). -/
theorem cleanup_changes_string_with_limit :
    cleanup_sql "select \\n limit 5" ≠ "select \\n limit 5" ∧
      strContains (lowerStr "select \\n limit 5") "limit" = true :=
  ⟨by decide, by decide⟩

/-- C8 (amended): cleanup first normalizes backslash escapes; if the
normalized text contains `limit` case-insensitively as a substring,
nothing further changes, otherwise exactly the lowercase clause
` limit 80` is appended and nothing else. -/
theorem cleanup_sql_normalize_then_append (s : String) :
    (strContains (lowerStr (normalize_escapes s)) "limit" = true →
        cleanup_sql s = normalize_escapes s) ∧
      (strContains (lowerStr (normalize_escapes s)) "limit" = false →
        cleanup_sql s = normalize_escapes s ++ " limit 80") := by
  constructor
  · intro h
    simp [cleanup_sql, h]
  · intro h
    simp only [cleanup_sql, h, Bool.false_eq_true, if_false]
    rw [String.append_assoc]
    rfl

/-- Witness for the amended C8 on both branches. -/
theorem cleanup_sql_normalize_then_append_witness :
    cleanup_sql "select 1 limit 5" = normalize_escapes "select 1 limit 5" ∧
      cleanup_sql "select 1" = normalize_escapes "select 1" ++ " limit 80" :=
  ⟨(cleanup_sql_normalize_then_append "select 1 limit 5").1 (by decide),
   (cleanup_sql_normalize_then_append "select 1").2 (by decide)⟩

/-! ### Claim C2 -/

/-- C2: with both cache tiers populated for the question (and a truthy
cached query produced by a successful earlier answer), the dispatcher
returns the cached response unmodified and the Language Model is not
invoked; with a question-tier hit whose query has no query-tier entry,
the dispatcher invokes the model exactly as on a plain miss. -/
theorem cache_hit_skips_model_and_dangling_hit_is_miss
    (m : CacheManager) (model : LlmRequest → LlmResponse) (req : LlmRequest)
    (c : Content) (question q : String)
    (hlast : req.contents.getLast? = some c)
    (hhead : c.parts.head? = some question) :
    (∀ entry : QueryCacheEntry,
        get_from_question_cache m question = some q → q ≠ "" →
        get_from_query_cache m q = some entry → entry.response.role = "model" →
        resolveViaCache m model req = ({ content := some entry.response }, false)) ∧
      (get_from_question_cache m question = some q → q ≠ "" →
        get_from_query_cache m q = none →
        resolveViaCache m model req = (model req, true)) ∧
      (get_from_question_cache m question = none →
        resolveViaCache m model req = (model req, true)) := by
  refine ⟨?_, ?_, ?_⟩
  · intro entry hq hne hentry hrole
    obtain ⟨resp, arts⟩ := entry
    obtain ⟨erole, eparts⟩ := resp
    simp only at hrole
    subst hrole
    simp [resolveViaCache, before_model_callback, hlast, hhead, hq, hentry,
      pyTruthyStr, hne]
  · intro hq hne hnone
    simp [resolveViaCache, before_model_callback, hlast, hhead, hq, hnone,
      pyTruthyStr, hne]
  · intro hq
    simp [resolveViaCache, before_model_callback, hlast, hhead, hq, pyTruthyStr]

/-- Witness for C2: a populated two-tier cache short-circuits the
model, a dangling question-tier entry falls through to it. -/
theorem cache_hit_skips_model_witness :
    resolveViaCache
        { query_cache :=
            [("SELECT 1", { response := { role := "model", parts := ["SELECT 1"] },
                            artifacts := [] })]
          question_cache := [("q1", "SELECT 1")] }
        (fun _ => { content := some { role := "model", parts := ["fresh"] } })
        { contents := [{ role := "user", parts := ["q1"] }] } =
      ({ content := some { role := "model", parts := ["SELECT 1"] } }, false) ∧
    resolveViaCache
        { query_cache := [], question_cache := [("q1", "SELECT 1")] }
        (fun _ => { content := some { role := "model", parts := ["fresh"] } })
        { contents := [{ role := "user", parts := ["q1"] }] } =
      ({ content := some { role := "model", parts := ["fresh"] } }, true) := by
  constructor
  · exact (cache_hit_skips_model_and_dangling_hit_is_miss
      { query_cache :=
          [("SELECT 1", { response := { role := "model", parts := ["SELECT 1"] },
                          artifacts := [] })]
        question_cache := [("q1", "SELECT 1")] }
      (fun _ => { content := some { role := "model", parts := ["fresh"] } })
      { contents := [{ role := "user", parts := ["q1"] }] }
      { role := "user", parts := ["q1"] } "q1" "SELECT 1" rfl rfl).1
      { response := { role := "model", parts := ["SELECT 1"] }, artifacts := [] }
      rfl (by decide) rfl rfl
  · exact (cache_hit_skips_model_and_dangling_hit_is_miss
      { query_cache := [], question_cache := [("q1", "SELECT 1")] }
      (fun _ => { content := some { role := "model", parts := ["fresh"] } })
      { contents := [{ role := "user", parts := ["q1"] }] }
      { role := "user", parts := ["q1"] } "q1" "SELECT 1" rfl rfl).2.1
      rfl (by decide) rfl

/-! ### Claim C3 -/

/-- C3 (counterexample): a request whose generated SQL is rejected by
the deny list — a terminal failure — still writes both cache tiers:
the callback caches the model response before any validation. -/
theorem cache_written_on_failed_request :
    (dispatchOnMiss okExec dropModel CacheManager.mkEmpty "which table?").2 =
        { query_result := none, error_message := some rejectMsg } ∧
      (dispatchOnMiss okExec dropModel CacheManager.mkEmpty "which table?").1 ≠
        CacheManager.mkEmpty :=
  ⟨rfl, by decide⟩

/-- C3 (amended): both cache tiers are written exactly when the model
response carries a content with a non-empty parts list and the context
history is non-empty — before and regardless of the validation or
execution outcome; when the response has no content, an empty parts
list, or the history is empty, the cache is untouched. -/
theorem after_model_callback_write_condition :
    (∀ (ctx : CallbackContext) (m : CacheManager) (resp : LlmResponse)
        (content : Content) (query : String) (last : Content) (question : String),
        resp.content = some content → content.parts.head? = some query →
        ctx.history.getLast? = some last → last.parts.head? = some question →
        after_model_callback ctx m resp =
          set_to_question_cache
            (set_to_query_cache m query { response := content, artifacts := [] })
            question query) ∧
      (∀ (ctx : CallbackContext) (m : CacheManager) (resp : LlmResponse),
        resp.content = none → after_model_callback ctx m resp = m) ∧
      (∀ (ctx : CallbackContext) (m : CacheManager) (resp : LlmResponse)
        (content : Content),
        resp.content = some content → content.parts = [] →
        after_model_callback ctx m resp = m) ∧
      (∀ (ctx : CallbackContext) (m : CacheManager) (resp : LlmResponse),
        ctx.history = [] → after_model_callback ctx m resp = m) := by
  refine ⟨?_, ?_, ?_, ?_⟩
  · intro ctx m resp content query last question hc hp hl hq
    simp [after_model_callback, hc, hp, hl, hq]
  · intro ctx m resp hc
    simp [after_model_callback, hc]
  · intro ctx m resp content hc hp
    simp [after_model_callback, hc, hp]
  · intro ctx m resp hh
    rcases hc : resp.content with _ | content
    · simp [after_model_callback, hc]
    · rcases hp : content.parts.head? with _ | query
      · simp [after_model_callback, hc, hp]
      · simp [after_model_callback, hc, hp, hh]

/-- Witness for the amended C3 at a concrete response and history. -/
theorem after_model_callback_write_condition_witness :
    after_model_callback { history := [{ role := "user", parts := ["q1"] }] }
        CacheManager.mkEmpty
        { content := some { role := "model", parts := ["SELECT 1"] } } =
      set_to_question_cache
        (set_to_query_cache CacheManager.mkEmpty "SELECT 1"
          { response := { role := "model", parts := ["SELECT 1"] }, artifacts := [] })
        "q1" "SELECT 1" :=
  after_model_callback_write_condition.1 _ _ _ _ _ _ _ rfl rfl rfl rfl

/-! ### Claim C9 -/

/-- C9: returned rows are the executor's rows mapped cell-wise through
`convertValue` (then truncated); `convertValue` renders every date and
datetime value as its `YYYY-MM-DD` string (for example `2024-03-05`),
and no value in any returned payload is a native date object. -/
theorem dates_rendered_as_ymd_strings :
    (∀ (execute : String → ExecOutcome) (sql : String) (schema : List String)
        (rows : List Row),
        containsDenied (cleanup_sql sql) = false →
        execute (cleanup_sql sql) = .ok schema rows → schema ≠ [] →
        (run_bigquery_validation execute sql).query_result =
          some ((rows.map convertRow).take MAX_NUM_ROWS)) ∧
      (∀ y m d, convertValue (.vDate y m d) = .vStr (formatYMD y m d)) ∧
      (∀ y m d hh mi ss, convertValue (.vDatetime y m d hh mi ss) =
        .vStr (formatYMD y m d)) ∧
      formatYMD 2024 3 5 = "2024-03-05" ∧
      (∀ (execute : String → ExecOutcome) (sql : String) (r : List Row),
        (run_bigquery_validation execute sql).query_result = some r →
        ∀ row ∈ r, ∀ kv ∈ row, isDateInstance kv.2 = false) := by
  refine ⟨?_, fun y m d => rfl, fun y m d hh mi ss => rfl, by decide, ?_⟩
  · intro execute sql schema rows hd hx hs
    have hs' : schema.isEmpty = false := by
      cases schema
      · exact absurd rfl hs
      · rfl
    unfold run_bigquery_validation
    simp [hd, hx, hs']
  · intro execute sql r hr row hrow kv hkv
    unfold run_bigquery_validation at hr
    by_cases hd : containsDenied (cleanup_sql sql)
    · simp [hd] at hr
    · simp only [hd, Bool.false_eq_true, if_false] at hr
      cases hx : execute (cleanup_sql sql) with
      | exn e =>
        simp [hx] at hr
      | ok schema rows =>
        rw [hx] at hr
        by_cases hs : schema.isEmpty
        · simp [hs] at hr
        · simp only [hs, Bool.false_eq_true, if_false, Option.some.injEq] at hr
          subst hr
          have hrow' : row ∈ rows.map convertRow := List.take_subset _ _ hrow
          obtain ⟨row₀, _, rfl⟩ := List.mem_map.1 hrow'
          obtain ⟨kv₀, _, rfl⟩ := List.mem_map.1 hkv
          exact isDateInstance_convertValue kv₀.2

/-- Witness for C9: a date cell comes back as the string
`"2024-03-05"`, which is not a date object. -/
theorem dates_rendered_as_ymd_strings_witness :
    (run_bigquery_validation dateExec "select 1").query_result =
        some [[("d", Value.vStr "2024-03-05")]] ∧
      isDateInstance (Value.vStr "2024-03-05") = false := by
  constructor
  · exact dates_rendered_as_ymd_strings.1 dateExec "select 1" ["d"]
      [[("d", Value.vDate 2024 3 5)]] (by decide) rfl (by decide)
  · exact dates_rendered_as_ymd_strings.2.2.2.2 dateExec "select 1"
      [[("d", Value.vStr "2024-03-05")]] rfl
      [("d", Value.vStr "2024-03-05")] (by simp)
      ("d", Value.vStr "2024-03-05") (by simp)

/-! ### Claim C10 -/

/-- C10: each cache setter leaves the other tier untouched, and on
either tier a get for a key never set (over any operation history from
the fresh cache) returns `None`. -/
theorem cache_tier_isolation_and_fresh_get :
    (∀ (m : CacheManager) (k v : String),
        (set_to_question_cache m k v).query_cache = m.query_cache) ∧
      (∀ (m : CacheManager) (k : String) (e : QueryCacheEntry),
        (set_to_query_cache m k e).question_cache = m.question_cache) ∧
      (∀ (ops : List CacheOp) (k : String),
        (∀ v, CacheOp.setQuestion k v ∉ ops) →
        get_from_question_cache (applyCacheOps ops) k = none) ∧
      (∀ (ops : List CacheOp) (k : String),
        (∀ e, CacheOp.setQuery k e ∉ ops) →
        get_from_query_cache (applyCacheOps ops) k = none) := by
  refine ⟨fun m k v => rfl, fun m k e => rfl, ?_, ?_⟩
  · intro ops k hops
    exact applyOps_question_none ops CacheManager.mkEmpty k hops rfl
  · intro ops k hops
    exact applyOps_query_none ops CacheManager.mkEmpty k hops rfl

/-- A sample query-tier payload for the C10 witness operations. -/
def entryB : QueryCacheEntry :=
  { response := { role := "model", parts := ["SELECT 2"] }, artifacts := [] }

/-- Witness for C10: after setting question key `a` and query key `b`,
the untouched keys still miss on both tiers. -/
theorem cache_tier_isolation_witness :
    get_from_question_cache
        (applyCacheOps [CacheOp.setQuestion "a" "x", CacheOp.setQuery "b" entryB])
        "c" = none ∧
      get_from_query_cache
        (applyCacheOps [CacheOp.setQuestion "a" "x", CacheOp.setQuery "b" entryB])
        "a" = none := by
  constructor
  · refine cache_tier_isolation_and_fresh_get.2.2.1 _ "c" ?_
    intro v
    simp
  · refine cache_tier_isolation_and_fresh_get.2.2.2 _ "a" ?_
    intro e
    simp

end SqlAgent
